import Mathlib

/-!
Verification development for the `spec-render-pipeline` repository's
GPU-pod lifecycle orchestrator (the `launch_pod_*` script family) and the
auxiliary bucket-wipe script.  Each Python procedure that the claims touch
is shallowly embedded as an executable Lean definition; log texts and
response bodies are modelled as `List Char` (Python `str` slicing acts on
character sequences), clocks as natural-number second counts, floats
(GPU prices) as rationals, and every unbounded `while True:` loop as a
fuel-indexed recursion where returning `none` means the loop has not yet
exited within the given number of iterations.
-/

namespace SpecRender

/-- Python `str` used as a sliceable character sequence. -/
abbrev Str := List Char

instance {ε α : Type} [DecidableEq ε] [DecidableEq α] : DecidableEq (Except ε α) := fun x y =>
  match x, y with
  | .error e₁, .error e₂ =>
    if h : e₁ = e₂ then .isTrue (h ▸ rfl) else .isFalse (fun hc => h (by injection hc))
  | .error _, .ok _ => .isFalse (fun hc => Except.noConfusion hc)
  | .ok _, .error _ => .isFalse (fun hc => Except.noConfusion hc)
  | .ok a₁, .ok a₂ =>
    if h : a₁ = a₂ then .isTrue (h ▸ rfl) else .isFalse (fun hc => h (by injection hc))

/-! ### launch_pod_cli.py - the GraphQL helper `gq` (lines 27-51)

`gq` posts a query, retries on HTTP 429/502/503/504 with wait
`2 ** attempt + random.random()`, raises on other non-ok statuses after
printing `r.text[:1000]`, raises on a JSON body whose `errors` field is
truthy, and returns `data["data"]` otherwise.  The outcome is paired with
the list of back-off waits actually slept, in order. -/

/-- Parsed JSON body of a GraphQL response: `errors` is absent or a list,
`dat` models the `"data"` key (absent means `data["data"]` raises). -/
structure GqBody (α : Type) where
  errors : Option (List Str)
  dat : Option α
deriving DecidableEq

/-- One HTTP response to a `gq` attempt. `body = none` models `r.json()`
raising on a malformed (non-JSON) payload. -/
structure GqResp (α : Type) where
  status : Nat
  text : Str
  body : Option (GqBody α)
deriving DecidableEq

/-- The ways `gq` can raise instead of returning `data["data"]`. -/
inductive GqError where
  | retriesExhausted
  | httpError (status : Nat) (textBound : Str)
  | apiErrors (errs : List Str)
  | malformedJson
  | missingData
deriving DecidableEq

/-- Status codes `gq` treats as retryable: `r.status_code in (429, 502, 503, 504)`. -/
def transient (s : Nat) : Bool :=
  s = 429 || s = 502 || s = 503 || s = 504

/-- `requests`' `r.ok`: true exactly when the status code is below 400. -/
def respOk (s : Nat) : Bool :=
  s < 400

/-- Python truthiness of `data.get("errors")`: truthy iff present and non-empty. -/
def errorsTruthy : Option (List Str) → Bool
  | some es => !es.isEmpty
  | none => false

/-- Shallow embedding of `gq` (launch_pod_cli.py lines 27-51).  `responses`
gives the provider's reply to each attempt, `jitter n` the value
`random.random()` drawn on attempt `n`; the first `Nat` argument is the
number of attempts left (`tries`, 5 at every call site), the second the
0-indexed current attempt.  Returns the outcome together with the list of
back-off waits slept, in order. -/
def gq {α : Type} (responses : Nat → GqResp α) (jitter : Nat → ℚ) :
    Nat → Nat → Except GqError α × List ℚ
  | 0, _ => (.error .retriesExhausted, [])
  | fuel + 1, attempt =>
    let r := responses attempt
    if transient r.status then
      let wait : ℚ := 2 ^ attempt + jitter attempt
      let rest := gq responses jitter fuel (attempt + 1)
      (rest.1, wait :: rest.2)
    else if !respOk r.status then
      (.error (.httpError r.status (r.text.take 1000)), [])
    else
      match r.body with
      | none => (.error .malformedJson, [])
      | some b =>
        if errorsTruthy b.errors then (.error (.apiErrors (b.errors.getD [])), [])
        else
          match b.dat with
          | some d => (.ok d, [])
          | none => (.error .missingData, [])

/-! ### launch_pod_cli.py - the poll loop (lines 95-108) -/

/-- MAX_RUNTIME_MIN * 60 seconds, with `MAX_RUNTIME_MIN = 60`. -/
def MAX_RUNTIME_SEC : Nat := 60 * 60

/-- Terminal outcomes of the CLI poll loop, including the
orchestrator-local timeout. -/
inductive CliOutcome where
  | succeeded
  | failed
  | timedOut
deriving DecidableEq

/-- The process exit code each outcome produces
(`sys.exit(0 if phase == "SUCCEEDED" else 1)` and `sys.exit(1)` on timeout). -/
def cliExitCode : CliOutcome → Nat
  | .succeeded => 0
  | .failed => 1
  | .timedOut => 1

/-- One iteration's decision in the CLI poll loop (launch_pod_cli.py
lines 96-106): exit on a terminal phase, exit with failure when the
elapsed wall-clock time exceeds the runtime ceiling, otherwise keep
polling (`none`).  The observed phase is returned with the outcome. -/
def cliDecide (phase : String) (elapsed : Nat) : Option (CliOutcome × String) :=
  if phase = "SUCCEEDED" ∨ phase = "FAILED" then
    some (if phase = "SUCCEEDED" then CliOutcome.succeeded else CliOutcome.failed, phase)
  else if MAX_RUNTIME_SEC < elapsed then
    some (CliOutcome.timedOut, phase)
  else
    none

/-- The CLI `while True:` poll loop, fuel-indexed.  `phases i` is the phase
string of the `i`-th `pod_status` call and `elapsed i` the value of
`time.time() - start` observed on that iteration; `none` means the loop has
not exited within `fuel` iterations. -/
def cliLoop (phases : Nat → String) (elapsed : Nat → Nat) :
    Nat → Nat → Option (CliOutcome × String)
  | 0, _ => none
  | fuel + 1, i =>
    match cliDecide (phases i) (elapsed i) with
    | some r => some r
    | none => cliLoop phases elapsed fuel (i + 1)

/-! ### launch_pod_rest.py - the poll loop (lines 61-73)

The REST-v2 variant polls `phase` forever: it exits via
`quit("Pod finished", 0 if phase == "SUCCEEDED" else 1)` on a terminal
phase and has no wall-clock deadline check of any kind. -/

/-- The REST variant's poll loop: returns the exit code and the phase it
stopped on, or `none` when it has not exited within `fuel` iterations. -/
def restLoop (phases : Nat → String) : Nat → Nat → Option (Nat × String)
  | 0, _ => none
  | fuel + 1, i =>
    let ph := phases i
    if ph = "SUCCEEDED" ∨ ph = "FAILED" then
      some (if ph = "SUCCEEDED" then 0 else 1, ph)
    else
      restLoop phases fuel (i + 1)

/-! ### launch_pod_on_demand.py - the log/status loop (lines 169-184) -/

/-- An HTTP response to the cumulative-log fetch: `ok` is `log_resp.ok`
and `text` is `log_resp.text`. -/
structure LogResp where
  ok : Bool
  text : Str
deriving DecidableEq

/-- An HTTP response to the status fetch: `ok` is `stat.ok` and `status`
models `stat.json().get("status")` (absent key gives `none`). -/
structure StatResp where
  ok : Bool
  status : Option String
deriving DecidableEq

/-- Lines 174-176 of launch_pod_on_demand.py: when the fetch succeeded and
the text changed, print `log_resp.text[len(last_log):]` (a Python slice,
clamped to empty when the text is shorter) and advance the cursor; the
result is the printed delta paired with the new cursor. -/
def logDeltaStep (lastLog : Str) (r : LogResp) : Str × Str :=
  if r.ok ∧ r.text ≠ lastLog then
    (r.text.drop lastLog.length, r.text)
  else
    ([], lastLog)

/-- Line 179: `stat.json().get("status", "UNKNOWN") if stat.ok else "UNKNOWN"`. -/
def statusOf (r : StatResp) : String :=
  if r.ok then r.status.getD "UNKNOWN" else "UNKNOWN"

/-- Line 180's continuation test: the loop keeps running only for
`status in ("Pending", "Running")`. -/
def onDemandNonTerminal (s : String) : Bool :=
  s = "Pending" || s = "Running"

/-- The on-demand `while True:` loop, fuel-indexed: each iteration fetches
logs (printing the delta), fetches status, and `break`s on any status
outside {Pending, Running}.  Returns all text printed plus the status the
loop broke on (`none` when it has not broken within `fuel` iterations). -/
def onDemandLoop (logs : Nat → LogResp) (stats : Nat → StatResp) :
    Nat → Nat → Str → Str × Option String
  | 0, _, _ => ([], none)
  | fuel + 1, i, lastLog =>
    let step := logDeltaStep lastLog (logs i)
    let s := statusOf (stats i)
    if onDemandNonTerminal s then
      let rest := onDemandLoop logs stats fuel (i + 1) step.2
      (step.1 ++ rest.1, rest.2)
    else
      (step.1, some s)

/-- After the loop breaks, `main` just prints a closing line and returns,
so the interpreter exits with status 0 whatever the final status was
(launch_pod_on_demand.py lines 184-188). -/
def onDemandExitCode (_finalStatus : String) : Nat := 0

/-- The cursor logic of lines 169-176 iterated over a whole run of log
fetches (status handling elided): returns everything printed and the final
cursor value. -/
def streamDeltas (lastLog : Str) : List LogResp → Str × Str
  | [] => ([], lastLog)
  | r :: rs =>
    let step := logDeltaStep lastLog r
    let rest := streamDeltas step.2 rs
    (step.1 ++ rest.1, rest.2)

/-! ### Prompt gathering and the PROMPTS_NDJSON bundle

launch_pod_cli.py line 84 (and launch_pod_rest.py line 31,
launch_pod_sdk.py line 101) build
`{"PROMPTS_NDJSON": "\n".join(prompts)[:48000]}`;
launch_pod_on_demand.py instead uses `gather_prompts` (lines 53-62),
which joins the non-blank lines with no truncation at all. -/

/-- Newline join: `"\n".join(lines)`. -/
def joinLines (lines : List Str) : Str :=
  List.intercalate [Char.ofNat 10] lines

/-- A Python line whose `strip()` is truthy, i.e. holding at least one
non-whitespace character. -/
def nonBlank (ln : Str) : Bool :=
  ln.any (fun c => !c.isWhitespace)

/-- The PROMPTS_NDJSON value of the CLI/REST/SDK variants:
`"\n".join(prompts)[:48000]`. -/
def cliPromptBundle (prompts : List Str) : Str :=
  (joinLines prompts).take 48000

/-- Embedding of `gather_prompts` (launch_pod_on_demand.py lines 53-62):
`fileLines` holds the line list of each file matched by the glob; the
lines are concatenated, the script exits when none matched, and the
non-blank lines are newline-joined with no size ceiling. -/
def gather_prompts (fileLines : List (List Str)) : Except Unit Str :=
  let lines := fileLines.flatten
  if lines.isEmpty then .error ()
  else .ok (joinLines (lines.filter nonBlank))

/-! ### launch_pod_sdk.py - pick_gpu (lines 56-88)

`pick_gpu` filters the catalog down to eligible Community GPUs, exits when
none qualifies, and takes the head of
`sorted(eligible, key=lambda g: (memoryInGb, -usdPerHr), reverse=True)`.
Catalog dictionaries are modelled with optional fields so the `.get`
defaults of the source apply literally; prices (Python floats compared
exactly) are rationals. -/

/-- One entry of `runpod.get_gpus()`; every field the function reads is
optional, mirroring dictionary `.get` access. -/
structure GpuInfo where
  id : Option String
  displayName : Option String
  cloudType : Option String
  memoryInGb : Option ℤ
  podsAvailable : Option ℤ
  usdPerHr : Option ℚ
deriving DecidableEq

/-- The eligibility test of lines 64-70, with the source's `.get`
defaults: cloud type COMMUNITY, `podsAvailable` (default 0) at least the
minimum count, `memoryInGb` (default 0) at least the minimum VRAM, and
`usdPerHr` (default `MAX_PRICE + 1`) at most the maximum price. -/
def eligibleGpu (minVram minCount : ℤ) (maxPrice : ℚ) (g : GpuInfo) : Bool :=
  decide (g.cloudType = some "COMMUNITY") &&
    decide (minCount ≤ g.podsAvailable.getD 0) &&
    decide (minVram ≤ g.memoryInGb.getD 0) &&
    decide (g.usdPerHr.getD (maxPrice + 1) ≤ maxPrice)

/-- The sort key of line 80: `(g.get("memoryInGb", 0), -g.get("usdPerHr", 0.0))`. -/
def gpuKey (g : GpuInfo) : ℤ × ℚ :=
  (g.memoryInGb.getD 0, -(g.usdPerHr.getD 0))

/-- Lexicographic order on sort keys, matching Python tuple comparison on
numbers. -/
def lexLe (p q : ℤ × ℚ) : Prop :=
  p.1 < q.1 ∨ (p.1 = q.1 ∧ p.2 ≤ q.2)

instance : DecidableRel lexLe := fun p q =>
  inferInstanceAs (Decidable (p.1 < q.1 ∨ (p.1 = q.1 ∧ p.2 ≤ q.2)))

/-- The descending comparison realized by
`sorted(eligible, key=..., reverse=True)`: `g₁` may come before `g₂` iff
the key of `g₂` is lexicographically at most that of `g₁`. -/
def gpuDesc (g₁ g₂ : GpuInfo) : Prop :=
  lexLe (gpuKey g₂) (gpuKey g₁)

instance : DecidableRel gpuDesc := fun g₁ g₂ =>
  inferInstanceAs (Decidable (lexLe (gpuKey g₂) (gpuKey g₁)))

instance : IsTotal GpuInfo gpuDesc :=
  ⟨fun g₁ g₂ => by
    unfold gpuDesc lexLe
    rcases lt_trichotomy (gpuKey g₂).1 (gpuKey g₁).1 with h | h | h
    · exact Or.inl (Or.inl h)
    · rcases le_total (gpuKey g₂).2 (gpuKey g₁).2 with h2 | h2
      · exact Or.inl (Or.inr ⟨h, h2⟩)
      · exact Or.inr (Or.inr ⟨h.symm, h2⟩)
    · exact Or.inr (Or.inl h)⟩

instance : IsTrans GpuInfo gpuDesc :=
  ⟨fun _ _ _ h₁ h₂ => by
    unfold gpuDesc lexLe at *
    rcases h₂ with hlt | ⟨e₂, l₂⟩
    · rcases h₁ with hlt' | ⟨e₁, _⟩
      · exact Or.inl (hlt.trans hlt')
      · exact Or.inl (by rw [← e₁]; exact hlt)
    · rcases h₁ with hlt' | ⟨e₁, l₁⟩
      · exact Or.inl (by rw [e₂]; exact hlt')
      · exact Or.inr ⟨e₂.trans e₁, l₂.trans l₁⟩⟩

/-- Embedding of `pick_gpu` (launch_pod_sdk.py lines 56-88): filter the
catalog, exit when nothing is eligible, sort descending by
(VRAM, -price) and take the head; the subsequent log line and
`return chosen["id"]` read `displayName`, `memoryInGb`, `usdPerHr`,
`podsAvailable` and `id` with `[]`-access, so a missing field raises
(modelled as an error). -/
def pick_gpu (minVram minCount : ℤ) (maxPrice : ℚ) (gpus : List GpuInfo) :
    Except String String :=
  let eligible := gpus.filter (eligibleGpu minVram minCount maxPrice)
  if eligible.isEmpty then
    .error "No Community GPU meets the minima"
  else
    match List.insertionSort gpuDesc eligible with
    | [] => .error "No Community GPU meets the minima"
    | chosen :: _ =>
      match chosen.displayName, chosen.memoryInGb, chosen.usdPerHr,
          chosen.podsAvailable, chosen.id with
      | some _, some _, some _, some _, some i => .ok i
      | _, _, _, _, _ => .error "KeyError"

/-! ### linode_nuke_bucket.py - delete_batch and the wipe loop -/

/-- One `{"Key": ..., "VersionId": ...}` item. -/
structure ObjVer where
  key : String
  versionId : String
deriving DecidableEq

/-- The observable actions of the wipe script: an S3 `delete_objects`
call, or a line printed to stdout. -/
inductive NukeAction where
  | deleteObjects (items : List ObjVer)
  | printLine (s : String)
deriving DecidableEq

/-- Embedding of `delete_batch` (linode_nuke_bucket.py lines 48-56): with
`DRY_RUN` it only prints each item; otherwise it issues one
`delete_objects` call and prints the entries of the response's `Deleted`
list, supplied by the environment function `deletedResp`. -/
def delete_batch (dry : Bool) (deletedResp : List ObjVer → List ObjVer)
    (items : List ObjVer) : List NukeAction :=
  if dry then
    items.map (fun o => .printLine ("DRY_RUN " ++ o.key ++ " " ++ o.versionId))
  else
    .deleteObjects items ::
      (deletedResp items).map (fun d => .printLine ("deleted " ++ d.key ++ " " ++ d.versionId))

/-- One page of `list_object_versions` results. -/
structure NukePage where
  versions : List ObjVer
  deleteMarkers : List ObjVer

/-- The inner accumulation of `main` (lines 64-70): append the object to
the batch and flush through `delete_batch` when the batch reaches 1000. -/
def nukeStep (dry : Bool) (deletedResp : List ObjVer → List ObjVer)
    (acc : List NukeAction × List ObjVer × Nat) (o : ObjVer) :
    List NukeAction × List ObjVer × Nat :=
  let batch := acc.2.1 ++ [o]
  if batch.length = 1000 then
    (acc.1 ++ delete_batch dry deletedResp batch, [], acc.2.2 + batch.length)
  else
    (acc.1, batch, acc.2.2)

/-- Embedding of `main` (linode_nuke_bucket.py lines 58-77): walk every
version and delete-marker of every page, flush full batches of 1000,
flush the leftover batch, and print the summary line.  Returns the action
trace and the final `total`. -/
def nukeMain (dry : Bool) (deletedResp : List ObjVer → List ObjVer)
    (pages : List NukePage) : List NukeAction × Nat :=
  let objs := (pages.map (fun p => p.versions ++ p.deleteMarkers)).flatten
  let acc := objs.foldl (nukeStep dry deletedResp) ([], [], 0)
  let flushed :=
    if acc.2.1.isEmpty then (acc.1, acc.2.2)
    else (acc.1 ++ delete_batch dry deletedResp acc.2.1, acc.2.2 + acc.2.1.length)
  (flushed.1 ++ [.printLine ((if dry then "Would delete " else "Deleted ") ++ toString flushed.2)],
    flushed.2)

/-- Whether an action mutates the bucket. -/
def isDeleteAction : NukeAction → Bool
  | .deleteObjects _ => true
  | .printLine _ => false

/-! ### launch_pod_rest.py - the launch call (lines 48-56) -/

/-- The ways the REST launch fails instead of producing a pod id. -/
inductive RestLaunchError where
  | httpError (status : Nat) (textBound : Str)
  | nonJson (textBound : Str)
deriving DecidableEq

/-- The HTTP response to `POST /pods/launch`: `body = none` models
`resp.json()` raising, `body = some p` a parsed object whose `podId`
lookup gives `p` (a missing key raises `KeyError`, caught by the same
`except` clause as the JSON error). -/
structure RestResp where
  status : Nat
  text : Str
  body : Option (Option String)
deriving DecidableEq

/-- Embedding of the launch sequence of launch_pod_rest.py lines 48-56:
a non-ok status quits with `resp.text[:2000]`; a body that fails to parse
or lacks `podId` quits with `resp.text[:1000]`; otherwise the pod id is
returned. -/
def restLaunch (r : RestResp) : Except RestLaunchError String :=
  if !respOk r.status then
    .error (.httpError r.status (r.text.take 2000))
  else
    match r.body with
    | none => .error (.nonJson (r.text.take 1000))
    | some none => .error (.nonJson (r.text.take 1000))
    | some (some pid) => .ok pid

/-! ### Concrete fixtures used by witness theorems -/

/-- A catalog entry: Community, 48 GB, 3 free pods, 2 USD/hr. -/
def gpuFixtureA : GpuInfo :=
  { id := some "gpu-a", displayName := some "RTX A6000",
    cloudType := some "COMMUNITY", memoryInGb := some 48,
    podsAvailable := some 3, usdPerHr := some 2 }

/-- A catalog entry: Community, 24 GB, 5 free pods, 1 USD/hr. -/
def gpuFixtureB : GpuInfo :=
  { id := some "gpu-b", displayName := some "RTX 4090",
    cloudType := some "COMMUNITY", memoryInGb := some 24,
    podsAvailable := some 5, usdPerHr := some 1 }

/-! ## Theorems -/

/-- When every attempt it has fuel for gets a retryable status, `gq`
sleeps `2 ^ attempt + jitter attempt` on each attempt and ends in the
retries-exhausted error. -/
theorem gq_all_transient {α : Type} (responses : Nat → GqResp α) (jitter : Nat → ℚ) :
    ∀ (fuel start : Nat),
      (∀ n, n < fuel → transient (responses (start + n)).status = true) →
      gq responses jitter fuel start =
        (.error .retriesExhausted,
          (List.range fuel).map (fun k => 2 ^ (start + k) + jitter (start + k)))
  | 0, start, _ => by simp [gq]
  | fuel + 1, start, h => by
    have h0 : transient (responses start).status = true := by
      have := h 0 (Nat.succ_pos fuel)
      simpa using this
    have ih := gq_all_transient responses jitter fuel (start + 1)
      (fun n hn => by
        have := h (n + 1) (Nat.succ_lt_succ hn)
        have e : start + (n + 1) = start + 1 + n := by omega
        rwa [e] at this)
    rw [gq, if_pos h0, ih]
    rw [List.range_succ_eq_map, List.map_cons, List.map_map]
    refine congrArg _ ?_
    refine congrArg₂ _ (by simp) ?_
    refine List.map_congr_left (fun k _ => ?_)
    have e : start + (k + 1) = start + 1 + k := by omega
    simp [Function.comp, e]

/-- C2: for submission attempts answered with HTTP 429/502/503/504, `gq`
retries with exponential backoff plus jitter for its full ceiling of 5
attempts; the wait after attempt `n` is `2 ^ n + jitter n`, which lies in
`[2 ^ n, 2 ^ n + 1)` whenever the jitter is a `random.random()` draw, and
exhausting the ceiling yields the fatal retries-exhausted error rather
than a handle. -/
theorem gq_transient_backoff {α : Type} (responses : Nat → GqResp α) (jitter : Nat → ℚ)
    (hT : ∀ n, n < 5 → transient (responses n).status = true)
    (hJ : ∀ n, 0 ≤ jitter n ∧ jitter n < 1) :
    (gq responses jitter 5 0).1 = .error .retriesExhausted ∧
      (gq responses jitter 5 0).2 = (List.range 5).map (fun n => 2 ^ n + jitter n) ∧
      ∀ n, n < 5 → 2 ^ n ≤ (gq responses jitter 5 0).2.getD n 0 ∧
        (gq responses jitter 5 0).2.getD n 0 < 2 ^ n + 1 := by
  have h := gq_all_transient responses jitter 5 0 (fun n hn => by simpa using hT n hn)
  refine ⟨by rw [h], by rw [h]; simp, ?_⟩
  intro n hn
  rw [h]
  have hval : ((List.range 5).map (fun k => 2 ^ (0 + k) + jitter (0 + k))).getD n 0
      = 2 ^ n + jitter n := by
    interval_cases n <;> simp [List.range_succ]
  rw [hval]
  obtain ⟨hj0, hj1⟩ := hJ n
  constructor <;> linarith

/-- Witness for C2 at a concrete run: every attempt answers 429 and the
jitter draw is constantly 1/2; the call exhausts all five attempts
fatally and the wait after attempt 3 lies in `[8, 9)`. -/
theorem gq_transient_backoff_witness :
    (gq (fun _ => ({ status := 429, text := [], body := none } : GqResp Unit))
        (fun _ => (1 : ℚ) / 2) 5 0).1 = .error .retriesExhausted ∧
      (2 : ℚ) ^ 3 ≤ (gq (fun _ => ({ status := 429, text := [], body := none } : GqResp Unit))
        (fun _ => (1 : ℚ) / 2) 5 0).2.getD 3 0 ∧
      (gq (fun _ => ({ status := 429, text := [], body := none } : GqResp Unit))
        (fun _ => (1 : ℚ) / 2) 5 0).2.getD 3 0 < 2 ^ 3 + 1 := by
  obtain ⟨h1, _, h3⟩ := gq_transient_backoff
    (fun _ => ({ status := 429, text := [], body := none } : GqResp Unit))
    (fun _ => (1 : ℚ) / 2) (fun _ _ => rfl) (fun _ => by norm_num)
  obtain ⟨hlo, hhi⟩ := h3 3 (by norm_num)
  exact ⟨h1, hlo, hhi⟩

/-- C7: a submission answered with a 4xx status other than 429 makes `gq`
fail on that first attempt with no retry and no back-off sleep, carrying
the first 1000 characters of the body; an ok status whose body is not
JSON likewise fails the first attempt with no retry; the REST variant
quits with the first 2000 characters on a non-ok launch status and with
the first 1000 characters on a non-JSON reply. -/
theorem submit_client_error_no_retry :
    (∀ (α : Type) (responses : Nat → GqResp α) (jitter : Nat → ℚ),
        400 ≤ (responses 0).status → (responses 0).status < 500 → (responses 0).status ≠ 429 →
        gq responses jitter 5 0 =
          (.error (.httpError (responses 0).status ((responses 0).text.take 1000)), [])) ∧
    (∀ (α : Type) (responses : Nat → GqResp α) (jitter : Nat → ℚ),
        respOk (responses 0).status = true → (responses 0).body = none →
        gq responses jitter 5 0 = (.error .malformedJson, [])) ∧
    (∀ r : RestResp, respOk r.status = false →
        restLaunch r = .error (.httpError r.status (r.text.take 2000))) ∧
    (∀ r : RestResp, respOk r.status = true → r.body = none →
        restLaunch r = .error (.nonJson (r.text.take 1000))) := by
  refine ⟨?_, ?_, ?_, ?_⟩
  · intro α responses jitter h4 h5 h429
    have ht : transient (responses 0).status = false := by
      simp only [transient, Bool.or_eq_false_iff, decide_eq_false_iff_not]
      omega
    have hok : respOk (responses 0).status = false := by
      simp only [respOk, decide_eq_false_iff_not]
      omega
    rw [gq, if_neg (by rw [ht]; simp), if_pos (by rw [hok]; rfl)]
  · intro α responses jitter hok hbody
    have ht : transient (responses 0).status = false := by
      have : (responses 0).status < 400 := by
        simpa [respOk] using hok
      simp only [transient, Bool.or_eq_false_iff, decide_eq_false_iff_not]
      omega
    rw [gq, if_neg (by rw [ht]; simp), if_neg (by rw [hok]; simp)]
    rw [hbody]
  · intro r hok
    rw [restLaunch, if_pos (by rw [hok]; rfl)]
  · intro r hok hbody
    rw [restLaunch, if_neg (by rw [hok]; simp), hbody]

/-- Witness for C7 at concrete responses: a 404 with body `x` fails the
single attempt with the bounded body and no back-off; an ok status with a
malformed body fails at once; the REST launch quits on a 404 and on a
non-JSON 200. -/
theorem submit_client_error_no_retry_witness :
    gq (fun _ => ({ status := 404, text := [ 'x' ], body := none } : GqResp Unit))
        (fun _ => (0 : ℚ)) 5 0 = (.error (.httpError 404 [ 'x' ]), []) ∧
      gq (fun _ => ({ status := 200, text := [ 'y' ], body := none } : GqResp Unit))
        (fun _ => (0 : ℚ)) 5 0 = (.error .malformedJson, []) ∧
      restLaunch ({ status := 404, text := [ 'z' ], body := none } : RestResp)
        = .error (.httpError 404 [ 'z' ]) ∧
      restLaunch ({ status := 200, text := [ 'w' ], body := none } : RestResp)
        = .error (.nonJson [ 'w' ]) := by
  obtain ⟨p1, p2, p3, p4⟩ := submit_client_error_no_retry
  refine ⟨?_, ?_, ?_, ?_⟩
  · simpa using p1 Unit (fun _ => ({ status := 404, text := [ 'x' ], body := none } : GqResp Unit))
      (fun _ => (0 : ℚ)) (by norm_num) (by norm_num) (by norm_num)
  · simpa using p2 Unit (fun _ => ({ status := 200, text := [ 'y' ], body := none } : GqResp Unit))
      (fun _ => (0 : ℚ)) (by decide) rfl
  · simpa using p3 ({ status := 404, text := [ 'z' ], body := none } : RestResp) (by decide)
  · simpa using p4 ({ status := 200, text := [ 'w' ], body := none } : RestResp) (by decide) rfl

/-- A single CLI poll decision exits with code 0 exactly when the phase
it observed is the canonical SUCCEEDED string. -/
theorem cliDecide_exit (phase : String) (e : Nat) (o : CliOutcome) (ph : String)
    (h : cliDecide phase e = some (o, ph)) :
    (cliExitCode o = 0 ↔ ph = "SUCCEEDED") := by
  unfold cliDecide at h
  split_ifs at h with h₁ hs h₂
  · simp only [Option.some.injEq, Prod.mk.injEq] at h
    obtain ⟨rfl, rfl⟩ := h
    simp [cliExitCode, hs]
  · simp only [Option.some.injEq, Prod.mk.injEq] at h
    obtain ⟨rfl, rfl⟩ := h
    simp [cliExitCode, hs]
  · simp only [Option.some.injEq, Prod.mk.injEq] at h
    obtain ⟨rfl, rfl⟩ := h
    push_neg at h₁
    simp [cliExitCode, h₁.1]

/-- The CLI poll loop's exit code is 0 exactly when the phase it stopped
on is SUCCEEDED. -/
theorem cliLoop_exit (phases : Nat → String) (elapsed : Nat → Nat) :
    ∀ (fuel i : Nat) (o : CliOutcome) (ph : String),
      cliLoop phases elapsed fuel i = some (o, ph) →
      (cliExitCode o = 0 ↔ ph = "SUCCEEDED")
  | 0, i, o, ph, h => by simp [cliLoop] at h
  | fuel + 1, i, o, ph, h => by
    rw [cliLoop] at h
    cases hd : cliDecide (phases i) (elapsed i) with
    | none =>
      rw [hd] at h
      exact cliLoop_exit phases elapsed fuel (i + 1) o ph h
    | some r =>
      rw [hd] at h
      cases r with
      | mk o' ph' =>
        simp only [Option.some.injEq, Prod.mk.injEq] at h
        obtain ⟨rfl, rfl⟩ := h
        exact cliDecide_exit (phases i) (elapsed i) o' ph' hd

/-- The REST poll loop's exit code is 0 exactly when the phase it stopped
on is SUCCEEDED. -/
theorem restLoop_exit (phases : Nat → String) :
    ∀ (fuel i c : Nat) (ph : String),
      restLoop phases fuel i = some (c, ph) → (c = 0 ↔ ph = "SUCCEEDED")
  | 0, i, c, ph, h => by simp [restLoop] at h
  | fuel + 1, i, c, ph, h => by
    rw [restLoop] at h
    split_ifs at h with h₁ hs
    · simp only [Option.some.injEq, Prod.mk.injEq] at h
      obtain ⟨rfl, rfl⟩ := h
      simp [hs]
    · simp only [Option.some.injEq, Prod.mk.injEq] at h
      obtain ⟨rfl, rfl⟩ := h
      simp [hs]
    · exact restLoop_exit phases fuel (i + 1) c ph h

/-- C1 (amended): in the CLI (GraphQL) and REST variants, whenever the
poll loop exits, the process exit code is 0 exactly when the last
observed phase was the canonical SUCCEEDED value; every other outcome
(FAILED and, in the CLI variant, the wall-clock timeout) exits non-zero.
The on-demand variant violates the original claim, see the
counterexample. -/
theorem exit_code_iff_succeeded :
    (∀ (phases : Nat → String) (elapsed : Nat → Nat) (fuel i : Nat)
        (o : CliOutcome) (ph : String),
        cliLoop phases elapsed fuel i = some (o, ph) →
        (cliExitCode o = 0 ↔ ph = "SUCCEEDED")) ∧
    (∀ (phases : Nat → String) (fuel i c : Nat) (ph : String),
        restLoop phases fuel i = some (c, ph) → (c = 0 ↔ ph = "SUCCEEDED")) :=
  ⟨fun phases elapsed fuel i o ph h => cliLoop_exit phases elapsed fuel i o ph h,
   fun phases fuel i c ph h => restLoop_exit phases fuel i c ph h⟩

/-- Witness for C1 at concrete runs: a CLI run whose third poll reports
SUCCEEDED exits 0, and a REST run that reports FAILED exits 1. -/
theorem exit_code_iff_succeeded_witness :
    cliLoop (fun i => if i < 2 then "RUNNING" else "SUCCEEDED") (fun _ => 0) 5 0
        = some (CliOutcome.succeeded, "SUCCEEDED") ∧
      (cliExitCode CliOutcome.succeeded = 0 ↔ "SUCCEEDED" = "SUCCEEDED") ∧
      restLoop (fun _ => "FAILED") 5 0 = some (1, "FAILED") ∧
      ((1 : Nat) = 0 ↔ "FAILED" = "SUCCEEDED") := by
  refine ⟨by decide, ?_, by decide, ?_⟩
  · exact exit_code_iff_succeeded.1 (fun i => if i < 2 then "RUNNING" else "SUCCEEDED")
      (fun _ => 0) 5 0 CliOutcome.succeeded "SUCCEEDED" (by decide)
  · exact exit_code_iff_succeeded.2 (fun _ => "FAILED") 5 0 1 "FAILED" (by decide)

/-- C1 counterexample: in the on-demand variant a run whose only observed
status is the terminal FAILED value still makes `main` return normally,
so the process exit code is 0 even though the last phase was not
SUCCEEDED. -/
theorem onDemand_failed_exits_zero :
    (onDemandLoop (fun _ => ({ ok := true, text := [] } : LogResp))
        (fun _ => ({ ok := true, status := some "FAILED" } : StatResp)) 5 0 []).2
        = some "FAILED" ∧
      onDemandExitCode "FAILED" = 0 ∧ "FAILED" ≠ "SUCCEEDED" := by
  refine ⟨by decide, rfl, by decide⟩

/-- The REST poll loop never stops while the provider keeps reporting
RUNNING: it has no deadline check at all. -/
theorem restLoop_running_none : ∀ (fuel i : Nat),
    restLoop (fun _ => "RUNNING") fuel i = none
  | 0, _ => rfl
  | fuel + 1, i => by
    rw [restLoop, if_neg (by decide)]
    exact restLoop_running_none fuel (i + 1)

/-- C4 counterexample: in the REST variant, 500 polls (at 20-second
intervals, far beyond the one-hour ceiling the CLI variant enforces) of a
permanently RUNNING pod still produce no terminal result: the loop has no
timeout and polls forever past any deadline. -/
theorem rest_loop_never_times_out :
    restLoop (fun _ => "RUNNING") 500 0 = none ∧ MAX_RUNTIME_SEC < 500 * 20 :=
  ⟨restLoop_running_none 500 0, by norm_num [MAX_RUNTIME_SEC]⟩

/-- If every phase is non-terminal and the elapsed clock exceeds the
ceiling by iteration `i + m`, the CLI loop exits with the timeout outcome
within `m + 1` further iterations. -/
theorem cliLoop_timeout_aux (phases : Nat → String) (elapsed : Nat → Nat)
    (hNT : ∀ i, phases i ≠ "SUCCEEDED" ∧ phases i ≠ "FAILED") :
    ∀ (m i : Nat), MAX_RUNTIME_SEC < elapsed (i + m) →
      ∃ j, cliLoop phases elapsed (m + 1) i = some (CliOutcome.timedOut, phases j)
  | 0, i, hk => by
    refine ⟨i, ?_⟩
    have hd : cliDecide (phases i) (elapsed i) = some (CliOutcome.timedOut, phases i) := by
      unfold cliDecide
      rw [if_neg (by rcases hNT i with ⟨h1, h2⟩; tauto), if_pos (by simpa using hk)]
    rw [cliLoop, hd]
  | m + 1, i, hk => by
    by_cases hi : MAX_RUNTIME_SEC < elapsed i
    · refine ⟨i, ?_⟩
      have hd : cliDecide (phases i) (elapsed i) = some (CliOutcome.timedOut, phases i) := by
        unfold cliDecide
        rw [if_neg (by rcases hNT i with ⟨h1, h2⟩; tauto), if_pos hi]
      rw [cliLoop, hd]
    · have hk' : MAX_RUNTIME_SEC < elapsed (i + 1 + m) := by
        have e : i + 1 + m = i + (m + 1) := by omega
        rw [e]
        exact hk
      obtain ⟨j, hj⟩ := cliLoop_timeout_aux phases elapsed hNT m (i + 1) hk'
      refine ⟨j, ?_⟩
      have hd : cliDecide (phases i) (elapsed i) = none := by
        unfold cliDecide
        rw [if_neg (by rcases hNT i with ⟨h1, h2⟩; tauto), if_neg hi]
      rw [cliLoop, hd]
      exact hj

/-- C4 (amended): in the CLI variant, whenever the wall clock exceeds
`MAX_RUNTIME_MIN * 60` seconds while every observed phase is still
non-terminal, the poll loop stops within finitely many iterations with
the orchestrator-local timeout outcome, which differs from both
SUCCEEDED and FAILED and exits non-zero.  The REST variant has no such
deadline, see the counterexample. -/
theorem cli_timeout_enforced (phases : Nat → String) (elapsed : Nat → Nat) (k : Nat)
    (hNT : ∀ i, phases i ≠ "SUCCEEDED" ∧ phases i ≠ "FAILED")
    (hk : MAX_RUNTIME_SEC < elapsed k) :
    (∃ j, cliLoop phases elapsed (k + 1) 0 = some (CliOutcome.timedOut, phases j)) ∧
      CliOutcome.timedOut ≠ CliOutcome.succeeded ∧
      CliOutcome.timedOut ≠ CliOutcome.failed ∧
      cliExitCode CliOutcome.timedOut ≠ 0 := by
  refine ⟨?_, by decide, by decide, by decide⟩
  exact cliLoop_timeout_aux phases elapsed hNT k 0 (by simpa using hk)

/-- Witness for C4 at a concrete run: the pod stays RUNNING and the clock
reads 4000 seconds on the second poll, so the loop times out. -/
theorem cli_timeout_enforced_witness :
    (∃ j, cliLoop (fun _ => "RUNNING") (fun i => 4000 * i) (1 + 1) 0
        = some (CliOutcome.timedOut, (fun _ : Nat => "RUNNING") j)) ∧
      CliOutcome.timedOut ≠ CliOutcome.succeeded ∧
      CliOutcome.timedOut ≠ CliOutcome.failed ∧
      cliExitCode CliOutcome.timedOut ≠ 0 := by
  have hNT : ∀ i : Nat, (fun _ : Nat => "RUNNING") i ≠ "SUCCEEDED" ∧
      (fun _ : Nat => "RUNNING") i ≠ "FAILED" := by
    intro i
    show ("RUNNING" ≠ "SUCCEEDED") ∧ ("RUNNING" ≠ "FAILED")
    exact ⟨by decide, by decide⟩
  exact cli_timeout_enforced (fun _ => "RUNNING") (fun i => 4000 * i) 1 hNT
    (by norm_num [MAX_RUNTIME_SEC])

/-- C5 (amended): in the CLI variant, a phase string outside the
recognized terminal pair - every unrecognized provider phase included -
leaves the loop polling (while within the deadline), and no decision ever
reports success unless the phase was exactly SUCCEEDED.  The on-demand
variant instead treats every status outside Pending/Running as terminal,
see the counterexample; neither variant emits a dedicated warning. -/
theorem cli_unrecognized_nonterminal :
    (∀ (ph : String) (e : Nat), ph ≠ "SUCCEEDED" → ph ≠ "FAILED" → e ≤ MAX_RUNTIME_SEC →
        cliDecide ph e = none) ∧
    (∀ (ph : String) (e : Nat) (o : CliOutcome) (s : String),
        cliDecide ph e = some (o, s) → o = CliOutcome.succeeded → ph = "SUCCEEDED") := by
  constructor
  · intro ph e h1 h2 h3
    unfold cliDecide
    rw [if_neg (by tauto), if_neg (by omega)]
  · intro ph e o s h ho
    unfold cliDecide at h
    split_ifs at h with h₁ hs h₂
    · exact hs
    · simp only [Option.some.injEq, Prod.mk.injEq] at h
      rw [ho] at h
      exact absurd h.1 (by decide)
    · simp only [Option.some.injEq, Prod.mk.injEq] at h
      rw [ho] at h
      exact absurd h.1 (by decide)

/-- Witness for C5 at concrete inputs: the unrecognized phase EXITED at
100 elapsed seconds keeps the CLI loop polling, and the success decision
on a SUCCEEDED poll indeed came from the SUCCEEDED phase. -/
theorem cli_unrecognized_nonterminal_witness :
    cliDecide "EXITED" 100 = none ∧ "SUCCEEDED" = "SUCCEEDED" :=
  ⟨cli_unrecognized_nonterminal.1 "EXITED" 100 (by decide) (by decide)
      (by norm_num [MAX_RUNTIME_SEC]),
    cli_unrecognized_nonterminal.2 "SUCCEEDED" 0 CliOutcome.succeeded "SUCCEEDED"
      (by decide) rfl⟩

/-- C5 counterexample: in the on-demand variant the unrecognized status
Exited is treated as terminal - the loop breaks at once instead of
continuing to poll - and the run then exits 0, a silent success. -/
theorem onDemand_unrecognized_terminal :
    (onDemandLoop (fun _ => ({ ok := true, text := [] } : LogResp))
        (fun _ => ({ ok := true, status := some "Exited" } : StatResp)) 5 0 []).2
        = some "Exited" ∧
      onDemandNonTerminal "Exited" = false ∧ onDemandExitCode "Exited" = 0 := by
  refine ⟨by decide, by decide, rfl⟩

/-- C6: evaluation of the on-demand poll loop at the failing input.  The
status endpoint fails once (a transient non-2xx on the very first poll)
and would report Succeeded on every later poll, yet the loop maps the
failed fetch to UNKNOWN and breaks immediately: the single transient
polling failure aborts the whole wait loop instead of being retried on
the next tick. -/
theorem onDemand_poll_failure_aborts :
    (onDemandLoop (fun _ => ({ ok := true, text := [] } : LogResp))
        (fun i => if i = 0 then ({ ok := false, status := none } : StatResp)
          else ({ ok := true, status := some "Succeeded" } : StatResp)) 5 0 []).2
        = some "UNKNOWN" ∧
      statusOf ({ ok := false, status := none } : StatResp) = "UNKNOWN" ∧
      onDemandNonTerminal "UNKNOWN" = false := by
  refine ⟨by decide, by decide, by decide⟩

/-- When the cumulative text extends the cursor, printing the dropped
slice reconstitutes the whole text. -/
theorem append_drop_of_ext {l₁ l₂ : Str} (h : ∃ t, l₁ ++ t = l₂) :
    l₁ ++ l₂.drop l₁.length = l₂ := by
  obtain ⟨t, rfl⟩ := h
  rw [List.drop_left]

/-- Folding the cursor logic over a run of successful log fetches whose
texts each extend the previous one prints, after the initial cursor,
exactly the final text. -/
theorem streamDeltas_chain : ∀ (texts : List Str) (lastLog : Str),
    List.Chain (fun a b => ∃ t, a ++ t = b) lastLog texts →
    lastLog ++ (streamDeltas lastLog (texts.map (fun t => ({ ok := true, text := t } : LogResp)))).1
      = texts.getLastD lastLog
  | [], lastLog, _ => by simp [streamDeltas]
  | t :: ts, lastLog, h => by
    rw [List.chain_cons] at h
    obtain ⟨hext, hchain⟩ := h
    rw [List.map_cons, streamDeltas, List.getLastD_cons]
    by_cases he : t = lastLog
    · subst he
      have ih := streamDeltas_chain ts t hchain
      simp only [logDeltaStep, ne_eq, not_true_eq_false, and_false, if_false]
      simpa using ih
    · have ih := streamDeltas_chain ts t hchain
      have hstep : logDeltaStep lastLog ({ ok := true, text := t } : LogResp)
          = (t.drop lastLog.length, t) := by
        simp [logDeltaStep, he]
      rw [hstep]
      dsimp only
      rw [← List.append_assoc, append_drop_of_ext hext, ih]

/-- C3: log delta printing is exact and lossless.  First, over any run of
successful polls whose cumulative texts each extend the previous one
(starting from the empty cursor), the concatenation of the printed deltas
is exactly the final text - nothing duplicated, nothing skipped.  Second,
on any poll whose fetched text is shorter than the cursor, the printed
delta is the empty string: the slice is clamped, never an error. -/
theorem log_delta_lossless :
    (∀ texts : List Str,
        List.Chain (fun a b => ∃ t, a ++ t = b) [] texts →
        (streamDeltas [] (texts.map (fun t => ({ ok := true, text := t } : LogResp)))).1
          = texts.getLastD []) ∧
    (∀ (lastLog : Str) (r : LogResp), r.text.length < lastLog.length →
        (logDeltaStep lastLog r).1 = []) := by
  constructor
  · intro texts hchain
    have h := streamDeltas_chain texts [] hchain
    simpa using h
  · intro lastLog r hlen
    unfold logDeltaStep
    split_ifs with h
    · exact List.drop_eq_nil_of_le (Nat.le_of_lt hlen)
    · rfl

/-- Witness for C3 at the spec's own example: polls fetching A, AB, ABC
print exactly ABC, and a poll that shrinks from AB to A prints nothing. -/
theorem log_delta_lossless_witness :
    (streamDeltas [] ([[ 'A' ], [ 'A', 'B' ], [ 'A', 'B', 'C' ]].map
        (fun t => ({ ok := true, text := t } : LogResp)))).1
      = [[ 'A' ], [ 'A', 'B' ], [ 'A', 'B', 'C' ]].getLastD [] ∧
      (logDeltaStep [ 'A', 'B' ] ({ ok := true, text := [ 'A' ] } : LogResp)).1 = [] :=
  ⟨log_delta_lossless.1 [[ 'A' ], [ 'A', 'B' ], [ 'A', 'B', 'C' ]]
      (List.Chain.cons ⟨[ 'A' ], rfl⟩
        (List.Chain.cons ⟨[ 'B' ], rfl⟩
          (List.Chain.cons ⟨[ 'C' ], rfl⟩ List.Chain.nil))),
    log_delta_lossless.2 [ 'A', 'B' ] ({ ok := true, text := [ 'A' ] } : LogResp) (by decide)⟩

/-- C8 (amended): in the CLI, REST and SDK variants, the PROMPTS_NDJSON
value placed in the job environment is the newline-join of the collected
prompt lines truncated to at most 48000 characters, whatever the prompt
set.  The on-demand variant applies no truncation, see the
counterexample. -/
theorem cli_bundle_ceiling (prompts : List Str) :
    (cliPromptBundle prompts).length ≤ 48000 := by
  unfold cliPromptBundle
  rw [List.length_take]
  exact min_le_left _ _

/-- C8 counterexample: the on-demand `gather_prompts` performs no
truncation, so a single 50000-character prompt line yields a
PROMPTS_NDJSON value of 50000 characters, beyond the 48000 ceiling. -/
theorem onDemand_bundle_overflow :
    gather_prompts [[ List.replicate 50000 'a' ]]
        = .ok (List.replicate 50000 'a') ∧
      (List.replicate 50000 'a').length = 50000 ∧ 48000 < 50000 := by
  refine ⟨?_, List.length_replicate 50000 'a', by norm_num⟩
  have hblank : nonBlank (List.replicate 50000 'a') = true := by
    simp only [nonBlank, List.any_eq_true]
    exact ⟨'a', List.mem_replicate.mpr ⟨by norm_num, rfl⟩, by decide⟩
  have hflat : ([[ List.replicate 50000 'a' ]] : List (List Str)).flatten
      = [ List.replicate 50000 'a' ] := by
    simp only [List.flatten_cons, List.flatten_nil, List.append_nil]
  have hfilter : List.filter nonBlank [ List.replicate 50000 'a' ]
      = [ List.replicate 50000 'a' ] := by
    rw [List.filter_cons_of_pos hblank, List.filter_nil]
  have hjoin : joinLines [ List.replicate 50000 'a' ] = List.replicate 50000 'a' := by
    unfold joinLines
    rw [List.intercalate, List.intersperse_singleton]
    simp only [List.flatten_cons, List.flatten_nil, List.append_nil]
  simp only [gather_prompts, hflat, List.isEmpty_cons, Bool.false_eq_true, if_false,
    hfilter, hjoin]

/-- C9: whenever `pick_gpu` returns an id, that id belongs to a catalog
entry that is Community-cloud, has at least the minimum pod count and
VRAM, and costs at most the price ceiling; no eligible entry has strictly
more VRAM, and among eligible entries of equal VRAM the chosen one has
minimal price.  When no entry is eligible, `pick_gpu` exits with an error
instead of returning an id. -/
theorem pick_gpu_postcondition :
    (∀ (minVram minCount : ℤ) (maxPrice : ℚ) (gpus : List GpuInfo) (i : String),
        pick_gpu minVram minCount maxPrice gpus = .ok i →
        ∃ g, g ∈ gpus ∧
          g.id = some i ∧
          g.cloudType = some "COMMUNITY" ∧
          minCount ≤ g.podsAvailable.getD 0 ∧
          minVram ≤ g.memoryInGb.getD 0 ∧
          g.usdPerHr.getD (maxPrice + 1) ≤ maxPrice ∧
          ∀ g', g' ∈ gpus → eligibleGpu minVram minCount maxPrice g' = true →
            g'.memoryInGb.getD 0 ≤ g.memoryInGb.getD 0 ∧
              (g'.memoryInGb.getD 0 = g.memoryInGb.getD 0 →
                g.usdPerHr.getD 0 ≤ g'.usdPerHr.getD 0)) ∧
    (∀ (minVram minCount : ℤ) (maxPrice : ℚ) (gpus : List GpuInfo),
        gpus.filter (eligibleGpu minVram minCount maxPrice) = [] →
        pick_gpu minVram minCount maxPrice gpus
          = .error "No Community GPU meets the minima") := by
  constructor
  · intro minVram minCount maxPrice gpus i h
    unfold pick_gpu at h
    by_cases hemp : (gpus.filter (eligibleGpu minVram minCount maxPrice)).isEmpty
    · rw [if_pos hemp] at h
      simp at h
    · rw [if_neg hemp] at h
      split at h
      · simp at h
      · next chosen rest hsort =>
        split at h
        · next dn mem price pods theId hdn hmm hup hpa hid =>
          simp only [Except.ok.injEq] at h
          subst h
          have hperm := List.perm_insertionSort gpuDesc
            (gpus.filter (eligibleGpu minVram minCount maxPrice))
          have hmemSort : chosen ∈ List.insertionSort gpuDesc
              (gpus.filter (eligibleGpu minVram minCount maxPrice)) := by
            rw [hsort]
            exact List.mem_cons_self chosen rest
          have hmemFilt := hperm.subset hmemSort
          obtain ⟨hmemG, heligC⟩ := List.mem_filter.mp hmemFilt
          have heligC' := heligC
          simp only [eligibleGpu, Bool.and_eq_true, decide_eq_true_eq] at heligC'
          obtain ⟨⟨⟨hcloud, hpods⟩, hvram⟩, hprice⟩ := heligC'
          have hsorted := List.sorted_insertionSort gpuDesc
            (gpus.filter (eligibleGpu minVram minCount maxPrice))
          rw [hsort] at hsorted
          have hhead := (List.sorted_cons.mp hsorted).1
          refine ⟨chosen, hmemG, hid, hcloud, hpods, hvram, hprice, ?_⟩
          intro g' hg' helig'
          have hg'filt : g' ∈ gpus.filter (eligibleGpu minVram minCount maxPrice) :=
            List.mem_filter.mpr ⟨hg', helig'⟩
          have hg'sort : g' ∈ List.insertionSort gpuDesc
              (gpus.filter (eligibleGpu minVram minCount maxPrice)) :=
            hperm.mem_iff.mpr hg'filt
          rw [hsort] at hg'sort
          rcases List.mem_cons.mp hg'sort with rfl | hrest
          · exact ⟨le_refl _, fun _ => le_refl _⟩
          · have hdesc := hhead g' hrest
            unfold gpuDesc lexLe gpuKey at hdesc
            rcases hdesc with hlt | ⟨heq, hneg⟩
            · refine ⟨hlt.le, fun heq2 => absurd hlt ?_⟩
              rw [heq2]
              exact lt_irrefl _
            · exact ⟨heq.le, fun _ => neg_le_neg_iff.mp hneg⟩
        · simp at h
  · intro minVram minCount maxPrice gpus hfilt
    unfold pick_gpu
    rw [hfilt]
    rfl

/-- Witness for C9 at a concrete catalog: of two eligible Community
entries, the 48 GB one is chosen over the cheaper 24 GB one, and it
dominates every eligible entry in VRAM. -/
theorem pick_gpu_postcondition_witness :
    pick_gpu 24 1 15 [gpuFixtureB, gpuFixtureA] = .ok "gpu-a" ∧
      (∃ g, g ∈ [gpuFixtureB, gpuFixtureA] ∧
        g.id = some "gpu-a" ∧
        g.cloudType = some "COMMUNITY" ∧
        (1 : ℤ) ≤ g.podsAvailable.getD 0 ∧
        (24 : ℤ) ≤ g.memoryInGb.getD 0 ∧
        g.usdPerHr.getD ((15 : ℚ) + 1) ≤ (15 : ℚ) ∧
        ∀ g', g' ∈ [gpuFixtureB, gpuFixtureA] → eligibleGpu 24 1 15 g' = true →
          g'.memoryInGb.getD 0 ≤ g.memoryInGb.getD 0 ∧
            (g'.memoryInGb.getD 0 = g.memoryInGb.getD 0 →
              g.usdPerHr.getD 0 ≤ g'.usdPerHr.getD 0)) :=
  ⟨by decide, pick_gpu_postcondition.1 24 1 15 [gpuFixtureB, gpuFixtureA] "gpu-a" (by decide)⟩

/-- A dry-run `delete_batch` call only prints: it performs no
`delete_objects` call. -/
theorem delete_batch_dry (deletedResp : List ObjVer → List ObjVer) (items : List ObjVer) :
    (delete_batch true deletedResp items).all (fun a => !isDeleteAction a) = true := by
  unfold delete_batch
  rw [if_pos rfl]
  simp [List.all_eq_true, isDeleteAction]

/-- The batching fold of the wipe loop preserves, in dry-run mode, the
absence of `delete_objects` actions in the trace. -/
theorem nukeFold_dry (deletedResp : List ObjVer → List ObjVer) :
    ∀ (objs : List ObjVer) (acts : List NukeAction) (batch : List ObjVer) (total : Nat),
      acts.all (fun a => !isDeleteAction a) = true →
      ((objs.foldl (nukeStep true deletedResp) (acts, batch, total)).1.all
        (fun a => !isDeleteAction a)) = true
  | [], _, _, _, h => by simpa using h
  | o :: objs, acts, batch, total, h => by
    rw [List.foldl_cons]
    have hstep : nukeStep true deletedResp (acts, batch, total) o =
        if (batch ++ [o]).length = 1000 then
          (acts ++ delete_batch true deletedResp (batch ++ [o]), [], total + (batch ++ [o]).length)
        else (acts, batch ++ [o], total) := rfl
    rw [hstep]
    by_cases hlen : (batch ++ [o]).length = 1000
    · rw [if_pos hlen]
      refine nukeFold_dry deletedResp objs _ _ _ ?_
      rw [List.all_append, h, delete_batch_dry deletedResp (batch ++ [o])]
      rfl
    · rw [if_neg hlen]
      exact nukeFold_dry deletedResp objs _ _ _ h

/-- C10: with DRY_RUN set, a whole run of the bucket-wipe script issues
no `delete_objects` call for any batch, whatever the listed pages and
whatever the provider would answer: its action trace holds only printed
lines, so no object or version is deleted or modified. -/
theorem dry_run_deletes_nothing (deletedResp : List ObjVer → List ObjVer)
    (pages : List NukePage) :
    ((nukeMain true deletedResp pages).1.all (fun a => !isDeleteAction a)) = true := by
  simp only [nukeMain]
  have hfold := nukeFold_dry deletedResp
    ((pages.map (fun p => p.versions ++ p.deleteMarkers)).flatten) [] [] 0 rfl
  set acc := List.foldl (nukeStep true deletedResp) ([], [], 0)
    ((pages.map (fun p => p.versions ++ p.deleteMarkers)).flatten) with hacc
  by_cases hemp : acc.2.1.isEmpty
  · rw [if_pos hemp]
    dsimp only
    rw [List.all_append, hfold]
    simp [isDeleteAction]
  · rw [if_neg hemp]
    dsimp only
    rw [List.all_append, List.all_append, hfold, delete_batch_dry deletedResp acc.2.1]
    simp [isDeleteAction]

end SpecRender
